import Mathlib

/-!
Verification of the `rover` repository (an overlay/btrfs environment manager).

The development shallowly embeds the Rust sources:
  * `src/btrfs/format.rs`   — the typed option builder for `mkfs.btrfs`
    (`FormatterOptions`), its argument compiler (`to_args`), and the
    process invoker (`Formatter::format`);
  * `src/btrfs/format_options.rs` — the historical `FormatOptions` builder;
  * `src/config.rs` + `src/error.rs` — the layered `Config` model, its
    derivation from a base path, and the persistence codec (`load`/`save`);
  * `src/overlay.rs`        — the overlay description and its mount call.

Machine integers are embedded as `Nat` (values are only stored and printed,
never overflowed), `PathBuf` as `String` with Unix `join` semantics, file
systems as explicit `String → Option String` maps, and external process or
mount invocations as records describing exactly what would be executed.
-/

set_option maxRecDepth 10000
set_option linter.dupNamespace false

/-- Tests whether a path string begins with the separator '/' (code point 47),
spelled over the character list so that it evaluates by kernel reduction. -/
def headIsSlash (s : String) : Bool :=
  match s.data with
  | [] => false
  | c :: _ => c.toNat == 47

/-- Tests whether a path string ends with the separator '/' (code point 47). -/
def lastIsSlash (s : String) : Bool :=
  match s.data.getLast? with
  | Option.some c => c.toNat == 47
  | Option.none => false

/-- Unix semantics of `std::path::Path::join` / `PathBuf::push`: an absolute
right-hand side replaces the path, otherwise the components are joined with
a single separator. -/
def pathJoin (base child : String) : String :=
  if headIsSlash child then child
  else if base = "" then child
  else if lastIsSlash base then base ++ child
  else base ++ "/" ++ child

namespace Overmount

/-- Embedding of the crate-level error type declared in `src/lib.rs`:
`IoError` wraps a `std::io::Error` (modelled by its message), and
`AssignmentError(field, value, constraint)` reports a rejected setter value. -/
inductive Error
  | IoError (msg : String)
  | AssignmentError (fieldName : String) (value : String) (constraint : String)
deriving DecidableEq, Repr

/-- Embedding of `DataProfile` from `src/btrfs/format.rs`. -/
inductive DataProfile
  | Raid0 | Raid1 | Raid1c3 | Raid1c4 | Raid5 | Raid6 | Raid10 | Single | Dup
deriving DecidableEq, Repr

/-- The `Display` impl for `DataProfile`. -/
def DataProfile.display : DataProfile → String
  | .Raid0 => "raid0"
  | .Raid1 => "raid1"
  | .Raid1c3 => "raid1c3"
  | .Raid1c4 => "raid1c4"
  | .Raid5 => "raid5"
  | .Raid6 => "raid6"
  | .Raid10 => "raid10"
  | .Single => "single"
  | .Dup => "dup"

/-- Embedding of `ChecksumAlgorithm` from `src/btrfs/format.rs`. -/
inductive ChecksumAlgorithm
  | CRC32C | XXHash | SHA256 | Blake2
deriving DecidableEq, Repr

/-- The `Display` impl for `ChecksumAlgorithm`. -/
def ChecksumAlgorithm.display : ChecksumAlgorithm → String
  | .CRC32C => "crc32c"
  | .XXHash => "xxhash"
  | .SHA256 => "sha256"
  | .Blake2 => "blake2"

/-- Embedding of the `FormatOpt` enum from `src/btrfs/format.rs`
("It's like an Option, but THICC"). -/
inductive FormatOpt
  | None
  | Algo (a : ChecksumAlgorithm)
  | Bool (b : Bool)
  | Data (d : DataProfile)
  | List (l : List String)
  | Path (p : String)
  | Text (t : String)
  | Uint (n : Nat)
  | Uuid (u : String)
deriving DecidableEq, Repr

/-- The `Display` impl for `FormatOpt`: lists join with ",", numbers print in
decimal, booleans as "true"/"false", paths via `Path::display`. -/
def FormatOpt.display : FormatOpt → String
  | .None => "None"
  | .Algo a => a.display
  | .Bool b => toString b
  | .Data d => d.display
  | .List l => String.intercalate "," l
  | .Path p => p
  | .Text t => t
  | .Uint n => toString n
  | .Uuid u => u

/-- Embedding of the `FormatterOptions` struct from `src/btrfs/format.rs`;
`#[derive(Default)]` makes every slot `FormatOpt::None`. -/
structure FormatterOptions where
  byte_count : FormatOpt := .None
  checksum : FormatOpt := .None
  data : FormatOpt := .None
  features : FormatOpt := .None
  force : FormatOpt := .None
  label : FormatOpt := .None
  metadata : FormatOpt := .None
  mixed : FormatOpt := .None
  no_discard : FormatOpt := .None
  nodesize : FormatOpt := .None
  rootdir : FormatOpt := .None
  runtime_features : FormatOpt := .None
  sectorsize : FormatOpt := .None
  shrink : FormatOpt := .None
  uuid : FormatOpt := .None
deriving DecidableEq, Repr

/-- `FormatterOptions::default()`, the state `Formatter::options()` starts from. -/
def FormatterOptions.default : FormatterOptions := {}

/-- Embedding of `usize::is_power_of_two` (an external `std` intrinsic used by
the `nodesize` setter): true iff exactly one bit is set, via the classic
`n != 0 && n & (n - 1) == 0` formulation. -/
def isPowerOfTwo (n : Nat) : Bool := n != 0 && (n &&& (n - 1)) == 0

/-- Setter `FormatterOptions::byte_count`. The prime avoids the clash with the
field projection; the body is the Rust body. -/
def FormatterOptions.byte_count' (o : FormatterOptions) (byte_count : Nat) :
    Except Error FormatterOptions :=
  .ok { o with byte_count := .Uint byte_count }

/-- Setter `FormatterOptions::checksum`. -/
def FormatterOptions.checksum' (o : FormatterOptions) (checksum : ChecksumAlgorithm) :
    Except Error FormatterOptions :=
  .ok { o with checksum := .Algo checksum }

/-- Setter `FormatterOptions::data`. -/
def FormatterOptions.data' (o : FormatterOptions) (data : DataProfile) :
    Except Error FormatterOptions :=
  .ok { o with data := .Data data }

/-- Setter `FormatterOptions::features`. -/
def FormatterOptions.features' (o : FormatterOptions) (features : List String) :
    Except Error FormatterOptions :=
  .ok { o with features := .List features }

/-- Setter `FormatterOptions::force` ("true if called"). -/
def FormatterOptions.force' (o : FormatterOptions) : Except Error FormatterOptions :=
  .ok { o with force := .Bool true }

/-- Setter `FormatterOptions::label`. Note: the Rust body performs no
validation whatsoever — it stores any string and returns `Ok`. -/
def FormatterOptions.label' (o : FormatterOptions) (label : String) :
    Except Error FormatterOptions :=
  .ok { o with label := .Text label }

/-- Setter `FormatterOptions::metadata`. -/
def FormatterOptions.metadata' (o : FormatterOptions) (metadata : DataProfile) :
    Except Error FormatterOptions :=
  .ok { o with metadata := .Data metadata }

/-- Setter `FormatterOptions::mixed` ("true if called"). -/
def FormatterOptions.mixed' (o : FormatterOptions) : Except Error FormatterOptions :=
  .ok { o with mixed := .Bool true }

/-- Setter `FormatterOptions::no_discard` ("true if called"). -/
def FormatterOptions.no_discard' (o : FormatterOptions) : Except Error FormatterOptions :=
  .ok { o with no_discard := .Bool true }

/-- Setter `FormatterOptions::nodesize`: validates that the node size is a
power of two and at most 16384, otherwise fails with
`Error::AssignmentError("node_size", value, constraint)`. -/
def FormatterOptions.nodesize' (o : FormatterOptions) (nodesize : Nat) :
    Except Error FormatterOptions :=
  if isPowerOfTwo nodesize = true ∧ nodesize ≤ 16384 then
    .ok { o with nodesize := .Uint nodesize }
  else
    .error (.AssignmentError "node_size" (toString nodesize)
      "Must be a power of 2, and <= 16384")

/-- Setter `FormatterOptions::rootdir`. -/
def FormatterOptions.rootdir' (o : FormatterOptions) (rootdir : String) :
    Except Error FormatterOptions :=
  .ok { o with rootdir := .Path rootdir }

/-- Setter `FormatterOptions::runtime_features`. -/
def FormatterOptions.runtime_features' (o : FormatterOptions) (features : List String) :
    Except Error FormatterOptions :=
  .ok { o with runtime_features := .List features }

/-- Setter `FormatterOptions::sectorsize`. -/
def FormatterOptions.sectorsize' (o : FormatterOptions) (sectorsize : Nat) :
    Except Error FormatterOptions :=
  .ok { o with sectorsize := .Uint sectorsize }

/-- Setter `FormatterOptions::shrink` ("true if called"). -/
def FormatterOptions.shrink' (o : FormatterOptions) : Except Error FormatterOptions :=
  .ok { o with shrink := .Bool true }

/-- Setter `FormatterOptions::uuid`. -/
def FormatterOptions.uuid' (o : FormatterOptions) (uuid : String) :
    Except Error FormatterOptions :=
  .ok { o with uuid := .Uuid uuid }

/-- The `push_arg` closure inside `FormatterOptions::to_args`: `None` pushes
nothing, `Bool` pushes a bare `--arg` flag, everything else pushes a single
`--arg=value` token using the `FormatOpt` display form. -/
def emitArg (arg : String) (opt : FormatOpt) : List String :=
  match opt with
  | .None => []
  | .Bool _ => ["--" ++ arg]
  | _ => ["--" ++ arg ++ "=" ++ opt.display]

/-- Embedding of `FormatterOptions::to_args`: each slot is visited in declared
order, guarded by the `if let` pattern on its expected constructor. -/
def FormatterOptions.to_args (o : FormatterOptions) : List String :=
  (match o.byte_count with | .Uint _ => emitArg "byte-count" o.byte_count | _ => []) ++
  (match o.checksum with | .Algo _ => emitArg "checksum" o.checksum | _ => []) ++
  (match o.data with | .Data _ => emitArg "data" o.data | _ => []) ++
  (match o.features with | .List _ => emitArg "features" o.features | _ => []) ++
  (match o.force with | .Bool _ => emitArg "force" o.force | _ => []) ++
  (match o.label with | .Text _ => emitArg "label" o.label | _ => []) ++
  (match o.metadata with | .Data _ => emitArg "metadata" o.metadata | _ => []) ++
  (match o.mixed with | .Bool _ => emitArg "mixed" o.mixed | _ => []) ++
  (match o.no_discard with | .Bool _ => emitArg "nodiscard" o.no_discard | _ => []) ++
  (match o.nodesize with | .Uint _ => emitArg "nodesize" o.nodesize | _ => []) ++
  (match o.rootdir with | .Path _ => emitArg "rootdir" o.rootdir | _ => []) ++
  (match o.runtime_features with | .List _ => emitArg "runtime-features" o.runtime_features | _ => []) ++
  (match o.sectorsize with | .Uint _ => emitArg "sectorsize" o.sectorsize | _ => []) ++
  (match o.shrink with | .Bool _ => emitArg "shrink" o.shrink | _ => []) ++
  (match o.uuid with | .Uuid _ => emitArg "uuid" o.uuid | _ => [])

/-- Embedding of the `Formatter` struct: the compiled argument list. -/
structure Formatter where
  args : List String
deriving DecidableEq, Repr

/-- `FormatterOptions::finalize`: bake the options into a `Formatter`. -/
def FormatterOptions.finalize (o : FormatterOptions) : Formatter :=
  { args := o.to_args }

/-- State of a filesystem path as observable by `std::fs`: it exists, it does
not exist, or its existence cannot be determined (e.g. permission denied on a
parent directory). -/
inductive PathState
  | present
  | missing
  | inaccessible (msg : String)
deriving DecidableEq, Repr

/-- Embedding of `std::path::Path::try_exists`: `Ok(true)` when the path
exists, `Ok(false)` when it verifiably does not exist, and `Err` only when
existence cannot be determined. -/
def tryExists (s : PathState) : Except String Bool :=
  match s with
  | .present => .ok true
  | .missing => .ok false
  | .inaccessible msg => .error msg

/-- Description of the external process `Formatter::format` would spawn:
the program name together with its full argument vector. -/
structure Invocation where
  program : String
  args : List String
deriving DecidableEq, Repr

/-- Embedding of `Formatter::format`: `device.try_exists()?` binds and
discards the boolean, then the device is appended to the argument list and
`mkfs.btrfs` is invoked. The filesystem is an explicit parameter; a returned
`Invocation` means the external process is started. -/
def Formatter.format (f : Formatter) (device : String) (fs : String → PathState) :
    Except String Invocation := do
  let _ ← tryExists (fs device)
  .ok { program := "mkfs.btrfs", args := f.args ++ [device] }

/-- Identity of an option slot of `FormatterOptions` (one per field). -/
inductive Slot
  | byteCount | checksum | data | features | force | label | metadata | mixed
  | noDiscard | nodesize | rootdir | runtimeFeatures | sectorsize | shrink | uuid
deriving DecidableEq, Repr

/-- One invocation of a `FormatterOptions` setter together with its payload. -/
inductive SetterCall
  | byteCount (n : Nat)
  | checksum (c : ChecksumAlgorithm)
  | data (d : DataProfile)
  | features (fs : List String)
  | force
  | label (s : String)
  | metadata (d : DataProfile)
  | mixed
  | noDiscard
  | nodesize (n : Nat)
  | rootdir (p : String)
  | runtimeFeatures (fs : List String)
  | sectorsize (n : Nat)
  | shrink
  | uuid (s : String)
deriving DecidableEq, Repr

/-- The slot a setter call writes to. -/
def SetterCall.slot : SetterCall → Slot
  | .byteCount _ => .byteCount
  | .checksum _ => .checksum
  | .data _ => .data
  | .features _ => .features
  | .force => .force
  | .label _ => .label
  | .metadata _ => .metadata
  | .mixed => .mixed
  | .noDiscard => .noDiscard
  | .nodesize _ => .nodesize
  | .rootdir _ => .rootdir
  | .runtimeFeatures _ => .runtimeFeatures
  | .sectorsize _ => .sectorsize
  | .shrink => .shrink
  | .uuid _ => .uuid

/-- Dispatch a setter call to the corresponding embedded setter. -/
def SetterCall.apply (s : SetterCall) (o : FormatterOptions) :
    Except Error FormatterOptions :=
  match s with
  | .byteCount n => o.byte_count' n
  | .checksum c => o.checksum' c
  | .data d => o.data' d
  | .features fs => o.features' fs
  | .force => o.force'
  | .label s => o.label' s
  | .metadata d => o.metadata' d
  | .mixed => o.mixed'
  | .noDiscard => o.no_discard'
  | .nodesize n => o.nodesize' n
  | .rootdir p => o.rootdir' p
  | .runtimeFeatures fs => o.runtime_features' fs
  | .sectorsize n => o.sectorsize' n
  | .shrink => o.shrink'
  | .uuid s => o.uuid' s

/-- The validation a setter call performs, separated from the state update:
only `nodesize` can reject its payload, and its verdict does not depend on the
builder state. -/
def SetterCall.check : SetterCall → Option Error
  | .nodesize n =>
    if isPowerOfTwo n = true ∧ n ≤ 16384 then Option.none
    else Option.some (.AssignmentError "node_size" (toString n)
      "Must be a power of 2, and <= 16384")
  | _ => Option.none

/-- The state update a setter call performs when its validation passes. -/
def SetterCall.upd : SetterCall → FormatterOptions → FormatterOptions
  | .byteCount n, o => { o with byte_count := .Uint n }
  | .checksum c, o => { o with checksum := .Algo c }
  | .data d, o => { o with data := .Data d }
  | .features fs, o => { o with features := .List fs }
  | .force, o => { o with force := .Bool true }
  | .label s, o => { o with label := .Text s }
  | .metadata d, o => { o with metadata := .Data d }
  | .mixed, o => { o with mixed := .Bool true }
  | .noDiscard, o => { o with no_discard := .Bool true }
  | .nodesize n, o => { o with nodesize := .Uint n }
  | .rootdir p, o => { o with rootdir := .Path p }
  | .runtimeFeatures fs, o => { o with runtime_features := .List fs }
  | .sectorsize n, o => { o with sectorsize := .Uint n }
  | .shrink, o => { o with shrink := .Bool true }
  | .uuid s, o => { o with uuid := .Uuid s }

/-- The fully populated `FormatterOptions` of the repository's own test
`format_start_to_finish` and of the module doc-example, built through the
setter chain. -/
def exampleOptions : Except Error FormatterOptions := do
  let o := FormatterOptions.default
  let o ← o.byte_count' 536870912
  let o ← o.checksum' .CRC32C
  let o ← o.data' .Dup
  let o ← o.features' ["mixed-bg"]
  let o ← o.force'
  let o ← o.label' "label-label"
  let o ← o.metadata' .Dup
  let o ← o.mixed'
  let o ← o.no_discard'
  let o ← o.nodesize' 4096
  let o ← o.rootdir' "./testdir"
  let o ← o.runtime_features' ["quota"]
  let o ← o.sectorsize' 4096
  let o ← o.shrink'
  o.uuid' "73e1b7e2-a3a8-49c2-b258-06f01a889bba"

/-- Embedding of the historical builder `FormatOptions` from
`src/btrfs/format_options.rs` (superseded by `FormatterOptions`, but its
`label` setter carries the intended label validation). -/
structure FormatOptions where
  byte_count : Option Nat := Option.none
  checksum : Option String := Option.none
  data : Option DataProfile := Option.none
  metadata : Option DataProfile := Option.none
  mixed : Option Bool := Option.none
  node_size : Option Nat := Option.none
  label : String := "btrfs_volume"
  no_discard : Option Bool := Option.none
  rootdir : Option String := Option.none
  shrink : Option Bool := Option.none
  features : Option (List String) := Option.none
  runtime_features : Option (List String) := Option.none
  force : Option Bool := Option.none
  uuid : Option String := Option.none
deriving DecidableEq, Repr

/-- `FormatOptions::default()` from `src/btrfs/format_options.rs`. -/
def FormatOptions.default : FormatOptions := {}

/-- Setter `FormatOptions::label` from `src/btrfs/format_options.rs`: accepts
exactly the non-empty labels of UTF-8 byte length below 256, failing otherwise
with the debug representation of the label (Rust string lengths are byte
lengths). -/
def FormatOptions.label' (o : FormatOptions) (label : String) :
    Except String FormatOptions :=
  if ¬ label.isEmpty = true ∧ label.utf8ByteSize < 256 then
    .ok { o with label := label }
  else
    .error (String.quote label)

end Overmount

namespace Rover

/-- Embedding of the error type from `src/error.rs`: external error payloads
(io, mount, and the per-encoding serde errors) are modelled by their messages;
`ArgumentError` carries its formatted message verbatim. -/
inductive Error
  | IoError (msg : String)
  | MountError (msg : String)
  | ArgumentError (msg : String)
  | JsonError (msg : String)
  | RonError (msg : String)
  | RonSpannedError (msg : String)
  | TomlSerError (msg : String)
  | TomlDeError (msg : String)
  | YamlError (msg : String)
deriving DecidableEq, Repr

namespace Config

/-- Embedding of the `Common` section of `src/config.rs`. -/
structure Common where
  base_directory : String
  directories : List String
deriving DecidableEq, Repr

/-- `Common::default()`. -/
def Common.default : Common :=
  { base_directory := "/opt/rwfus"
  , directories := ["/usr", "/etc/pacman.d", "/var/lib/pacman", "/var/cache/pacman"] }

/-- Setter `Common::base_directory`. -/
def Common.base_directory' (c : Common) (path : String) : Common :=
  { c with base_directory := path }

/-- `impl From<T> for Common`: the default with the base directory replaced. -/
def Common.derive (value : String) : Common :=
  Common.default.base_directory' value

/-- Embedding of the `Service` section of `src/config.rs`. -/
structure Service where
  mask_units : List String
  restart_units : List String
  stop_units : List String
deriving DecidableEq, Repr

/-- `Service::default()`. -/
def Service.default : Service :=
  { mask_units := ["pacman-cleanup.service"]
  , restart_units := ["usr-local.mount", "polkit.service"]
  , stop_units := ["var-cache-pacman.mount"] }

/-- `impl From<T> for Service`: the base path is ignored entirely. -/
def Service.derive (_value : String) : Service :=
  Service.default

/-- Embedding of the `Overlay` section of `src/config.rs` (distinct from the
`Overlay` of `src/overlay.rs`). `#[derive(Default)]` gives the empty path. -/
structure Overlay where
  overlay_directory : String := ""
deriving DecidableEq, Repr

/-- `Overlay::default()`. -/
def Overlay.default : Overlay := {}

/-- Setter `Overlay::overlay_directory`. -/
def Overlay.overlay_directory' (o : Overlay) (path : String) : Overlay :=
  { o with overlay_directory := path }

/-- `impl From<T> for Overlay`: the default with `base.join("mount")`. -/
def Overlay.derive (value : String) : Overlay :=
  Overlay.default.overlay_directory' (pathJoin value "mount")

/-- Embedding of the `Disk` section of `src/config.rs`. -/
structure Disk where
  disk_image_path : String
  disk_image_size : String
  mount_directory : String
  mount_options : List String
deriving DecidableEq, Repr

/-- `Disk::default()`. -/
def Disk.default : Disk :=
  { disk_image_path := "/opt/rwfus/rwfus.btrfs"
  , disk_image_size := "8G"
  , mount_directory := "/opt/rwfus/mount"
  , mount_options := ["loop", "compress"] }

/-- Setter `Disk::disk_image_path`. -/
def Disk.disk_image_path' (d : Disk) (path : String) : Disk :=
  { d with disk_image_path := path }

/-- Setter `Disk::mount_directory`. -/
def Disk.mount_directory' (d : Disk) (path : String) : Disk :=
  { d with mount_directory := path }

/-- `impl From<T> for Disk`: rebases the image path and mount directory. -/
def Disk.derive (value : String) : Disk :=
  (Disk.default.disk_image_path' (pathJoin value "rwfus.btrfs")).mount_directory'
    (pathJoin value "mount")

/-- Embedding of the `Configurator` section of `src/config.rs`. -/
structure Configurator where
  install_directory : String
  service_directory : String
  systemd_directory : String
  logfile : String
deriving DecidableEq, Repr

/-- `Configurator::default()`. -/
def Configurator.default : Configurator :=
  { install_directory := "/home/.steamos/offload/usr/local/bin"
  , logfile := "/var/log/rwfus.log"
  , service_directory := "/opt/rwfus/service"
  , systemd_directory := "/etc/systemd/system" }

/-- Setter `Configurator::install_directory`. -/
def Configurator.install_directory' (c : Configurator) (path : String) : Configurator :=
  { c with install_directory := path }

/-- Setter `Configurator::service_directory`. -/
def Configurator.service_directory' (c : Configurator) (path : String) : Configurator :=
  { c with service_directory := path }

/-- `impl From<T> for Configurator`: rebases the install and service
directories, keeping the systemd directory and logfile defaults. -/
def Configurator.derive (value : String) : Configurator :=
  (Configurator.default.install_directory' (pathJoin value "rwfus.btrfs")).service_directory'
    (pathJoin value "service")

/-- Embedding of the top-level `Config` struct of `src/config.rs`. -/
structure Config where
  common : Common
  configurator : Configurator
  disk : Disk
  overlay : Overlay
  service : Service
deriving DecidableEq, Repr

/-- `impl From<T> for Config`: every section is derived from the same base. -/
def Config.derive (value : String) : Config :=
  { common := Common.derive value
  , configurator := Configurator.derive value
  , disk := Disk.derive value
  , overlay := Overlay.derive value
  , service := Service.derive value }

/-- `Config::default()`: every section at its own hard-coded default. -/
def Config.default : Config :=
  { common := Common.default
  , configurator := Configurator.default
  , disk := Disk.default
  , overlay := Overlay.default
  , service := Service.default }

/-- Embedding of `ConfigFormat` from the `io` module of `src/config.rs`, with
every serde feature compiled in; `Dummy` is the tag with no backing encoder. -/
inductive ConfigFormat
  | Dummy
  | Json
  | Ron
  | Toml
  | Yaml
deriving DecidableEq, Repr

/-- Boundary model of the external serde backends (`serde_json`, `ron`,
`toml`, `serde_yaml`): for each format tag a pretty-encoder and a decoder,
both fallible. The repository dispatches to these crates; their bodies are
not part of the repository, so they are parameters of the embedding. -/
structure Codec where
  enc : ConfigFormat → Config → Except Error String
  dec : ConfigFormat → String → Except Error Config

/-- A filesystem snapshot: the text content of each path, if the file exists. -/
def FS := String → Option String

/-- The empty filesystem. -/
def emptyFS : FS := fun _ => Option.none

/-- Embedding of `Config::to_string_pretty`: dispatch on the format tag; the
wildcard arm (reached by `Dummy`) yields `Ok("".to_owned())`. -/
def Config.to_string_pretty (codec : Codec) (c : Config) (format : ConfigFormat) :
    Except Error String :=
  match format with
  | .Json => codec.enc .Json c
  | .Ron => codec.enc .Ron c
  | .Toml => codec.enc .Toml c
  | .Yaml => codec.enc .Yaml c
  | .Dummy => .ok ""

/-- Embedding of `Config::save`: create/truncate the file at `path` and write
the pretty string followed by a newline; the updated filesystem is returned.
(The transient state where `File::create` has truncated the file but the
encoder then fails is not modelled; no claim touches it.) -/
def Config.save (codec : Codec) (c : Config) (fs : FS) (path : String)
    (format : ConfigFormat) : Except Error FS :=
  match c.to_string_pretty codec format with
  | .error e => .error e
  | .ok s => .ok (fun p => if p = path then Option.some (s ++ "\n") else fs p)

/-- Embedding of `Config::load`: `read_to_string(path)?` then dispatch on the
format tag; the wildcard arm (reached by `Dummy`) yields
`Err(ArgumentError("".to_owned()))`. -/
def Config.load (codec : Codec) (fs : FS) (path : String) (format : ConfigFormat) :
    Except Error Config :=
  match fs path with
  | Option.none => .error (.IoError "No such file or directory")
  | Option.some file =>
    match format with
    | .Json => codec.dec .Json file
    | .Ron => codec.dec .Ron file
    | .Toml => codec.dec .Toml file
    | .Yaml => codec.dec .Yaml file
    | .Dummy => .error (.ArgumentError "")

/-- A concrete codec used to instantiate closed statements: it encodes every
config to the empty string and decodes every string to the default config.
It satisfies the round-trip contract at `Config.default` only. -/
def trivialCodec : Codec :=
  { enc := fun _ _ => .ok ""
  , dec := fun _ _ => .ok Config.default }

end Config

/-- Embedding of the `Overlay` struct of `src/overlay.rs`;
`#[derive(Default)]` gives empty paths. -/
structure Overlay where
  source : String := ""
  upper : String := ""
  work : String := ""
deriving DecidableEq, Repr

/-- Setter `Overlay::source`. -/
def Overlay.source' (o : Overlay) (path : String) : Overlay :=
  { o with source := path }

/-- Setter `Overlay::destination`: `upper = path/"upper"`, `work = path/"work"`
via `PathBuf::push`. -/
def Overlay.destination' (o : Overlay) (path : String) : Overlay :=
  { o with upper := pathJoin path "upper", work := pathJoin path "work" }

/-- `Overlay::new(source, destination)` from `src/overlay.rs`. -/
def Overlay.new (source destination : String) : Overlay :=
  (({} : Overlay).source' source).destination' destination

/-- The call the free function `mount` of `src/overlay.rs` hands to the
external collaborator `libmount::Overlay::writable(lower_dirs, upperdir,
workdir, target)`: a writable overlay mount description. -/
structure MountCall where
  lower_dirs : List String
  upperdir : String
  workdir : String
  target : String
deriving DecidableEq, Repr

/-- Embedding of the free function `mount(lower, upper, work)` of
`src/overlay.rs`: it passes `[lower]` as the lower directories, `upper` and
`work` as the upper/work directories, and `lower` again as the mount target.
(The `sudo::escalate_if_needed` privilege step is outside the model.) -/
def mountCall (lower upper work : String) : MountCall :=
  { lower_dirs := [lower], upperdir := upper, workdir := work, target := lower }

/-- `Overlay::mount`: forwards `(source, upper, work)` to `mount`. -/
def Overlay.mount' (o : Overlay) : MountCall :=
  mountCall o.source o.upper o.work

end Rover

namespace Overmount

/-- A power of two shares no set bit with its predecessor. -/
theorem two_pow_land_pred (k : Nat) : 2 ^ k &&& (2 ^ k - 1) = 0 := by
  apply Nat.eq_of_testBit_eq
  intro i
  rw [Nat.testBit_land, Nat.testBit_two_pow, Nat.testBit_two_pow_sub_one, Nat.zero_testBit]
  by_cases h : k = i
  · subst h; simp
  · simp [h]

/-- A number in the interval from `2 ^ k` up to (excluding) `2 ^ (k + 1)` has
bit `k` set. -/
theorem testBit_of_between (x k : Nat) (h1 : 2 ^ k ≤ x) (h2 : x < 2 ^ (k + 1)) :
    x.testBit k = true := by
  have hdiv : x / 2 ^ k = 1 := by
    apply Nat.div_eq_of_lt_le
    · simpa using h1
    · simpa [Nat.pow_succ, Nat.mul_comm] using h2
  rw [Nat.testBit_to_div_mod, hdiv]
  simp

/-- The bit trick embedded as `isPowerOfTwo` recognises exactly the powers of
two, vindicating the contract of `usize::is_power_of_two`. -/
theorem isPowerOfTwo_iff (n : Nat) : isPowerOfTwo n = true ↔ ∃ k, n = 2 ^ k := by
  constructor
  · intro h
    have h0 : n ≠ 0 ∧ n &&& (n - 1) = 0 := by
      simpa [isPowerOfTwo] using h
    obtain ⟨h1, h2⟩ := h0
    refine ⟨n.log2, ?_⟩
    have hk1 : 2 ^ n.log2 ≤ n := Nat.log2_self_le h1
    have hk2 : n < 2 ^ (n.log2 + 1) := Nat.lt_log2_self
    rcases Nat.eq_or_lt_of_le hk1 with he | hlt
    · exact he.symm
    · exfalso
      have hb1 : n.testBit n.log2 = true := testBit_of_between n n.log2 hk1 hk2
      have hb2 : (n - 1).testBit n.log2 = true := by
        apply testBit_of_between
        · omega
        · omega
      have hb : (n &&& (n - 1)).testBit n.log2 = true := by
        rw [Nat.testBit_land, hb1, hb2]; rfl
      rw [h2, Nat.zero_testBit] at hb
      exact Bool.false_ne_true hb
  · rintro ⟨k, rfl⟩
    simp [isPowerOfTwo, two_pow_land_pred]

/-- C2: compiling the fully populated `FormatterOptions` of the repository's
test yields exactly the fifteen expected tokens in declared order; an
all-Absent set compiles to no tokens at all. -/
theorem compile_full_option_set :
    exampleOptions.map FormatterOptions.to_args =
      .ok ["--byte-count=536870912", "--checksum=crc32c", "--data=dup",
        "--features=mixed-bg", "--force", "--label=label-label", "--metadata=dup",
        "--mixed", "--nodiscard", "--nodesize=4096", "--rootdir=./testdir",
        "--runtime-features=quota", "--sectorsize=4096", "--shrink",
        "--uuid=73e1b7e2-a3a8-49c2-b258-06f01a889bba"] ∧
    FormatterOptions.default.to_args = [] := by
  constructor
  · rfl
  · rfl

/-- Every setter factors through its state-independent validation and its
field update. -/
theorem SetterCall.apply_eq (s : SetterCall) (o : FormatterOptions) :
    s.apply o = match s.check with
      | Option.some e => .error e
      | Option.none => .ok (s.upd o) := by
  cases s <;>
    first
    | rfl
    | (rename_i n
       by_cases hc : isPowerOfTwo n = true ∧ n ≤ 16384 <;>
         simp [SetterCall.apply, SetterCall.check, SetterCall.upd,
           FormatterOptions.nodesize', hc])

/-- Two setter calls whose validations both fail target the same slot
(only `nodesize` validates). -/
theorem check_some_some (a b : SetterCall) (ea eb : Error)
    (ha : a.check = Option.some ea) (hb : b.check = Option.some eb) :
    a.slot = b.slot := by
  cases a <;> cases b <;> simp_all [SetterCall.check, SetterCall.slot]

/-- Setter calls to distinct slots commute at the level of the resulting
`FormatterOptions` builder state. -/
theorem apply_apply_comm (o : FormatterOptions) (a b : SetterCall)
    (h : a.slot ≠ b.slot) :
    (a.apply o).bind b.apply = (b.apply o).bind a.apply := by
  have hupd : ∀ x : FormatterOptions, b.upd (a.upd x) = a.upd (b.upd x) := by
    intro x
    cases a <;> cases b <;> first | exact absurd rfl h | rfl
  rcases hca : a.check with _ | ea <;> rcases hcb : b.check with _ | eb
  · simp [SetterCall.apply_eq, hca, hcb, Except.bind, hupd]
  · simp [SetterCall.apply_eq, hca, hcb, Except.bind]
  · simp [SetterCall.apply_eq, hca, hcb, Except.bind]
  · exact absurd (check_some_some a b ea eb hca hcb) h

/-- C3: setting two distinct option slots in either order and then compiling
yields the same argument sequence, and compiling is a pure function, so
compiling the same `FormatterOptions` twice yields identical output. -/
theorem compile_order_independent (o : FormatterOptions) (a b : SetterCall)
    (h : a.slot ≠ b.slot) :
    ((a.apply o).bind b.apply).map FormatterOptions.to_args =
      ((b.apply o).bind a.apply).map FormatterOptions.to_args ∧
    o.to_args = o.to_args := by
  exact ⟨by rw [apply_apply_comm o a b h], rfl⟩

/-- Witness for C3 at the concrete pair `force` / `mixed` on the empty set. -/
theorem compile_order_independent_witness :
    SetterCall.force.slot ≠ SetterCall.mixed.slot ∧
    (((SetterCall.force.apply FormatterOptions.default).bind SetterCall.mixed.apply).map
        FormatterOptions.to_args =
      ((SetterCall.mixed.apply FormatterOptions.default).bind SetterCall.force.apply).map
        FormatterOptions.to_args ∧
      FormatterOptions.default.to_args = FormatterOptions.default.to_args) :=
  ⟨by decide, compile_order_independent FormatterOptions.default .force .mixed (by decide)⟩

/-- C4: `nodesize(n)` stores `n` exactly when `n` is a power of two not
exceeding 16384, and otherwise returns the assignment error naming the field,
the rejected value and the violated constraint (so no builder state with the
slot set is ever produced on failure). -/
theorem nodesize_validation (o : FormatterOptions) (n : Nat) :
    ((∃ k, n = 2 ^ k) ∧ n ≤ 16384 →
      o.nodesize' n = .ok { o with nodesize := .Uint n }) ∧
    (¬ ((∃ k, n = 2 ^ k) ∧ n ≤ 16384) →
      o.nodesize' n = .error (.AssignmentError "node_size" (toString n)
        "Must be a power of 2, and <= 16384")) := by
  constructor
  · rintro ⟨hp, hle⟩
    rw [FormatterOptions.nodesize', if_pos ⟨(isPowerOfTwo_iff n).mpr hp, hle⟩]
  · intro hns
    rw [FormatterOptions.nodesize', if_neg]
    intro hc
    exact hns ⟨(isPowerOfTwo_iff n).mp hc.1, hc.2⟩

/-- Witness for C4: the valid node size 4096 is stored exactly. -/
theorem nodesize_validation_witness :
    ((∃ k, (4096 : Nat) = 2 ^ k) ∧ (4096 : Nat) ≤ 16384) ∧
    FormatterOptions.default.nodesize' 4096 =
      .ok { FormatterOptions.default with nodesize := .Uint 4096 } :=
  ⟨⟨⟨12, by norm_num⟩, by norm_num⟩,
    (nodesize_validation FormatterOptions.default 4096).1 ⟨⟨12, by norm_num⟩, by norm_num⟩⟩

/-- A 256-byte label, the failing input of the repository's own test
`very_long_label`. -/
def longLabel : String := String.mk (List.replicate 256 'A')

/-- C5: `FormatterOptions::label` performs no validation: it accepts (stores
and returns `Ok`) both the 256-byte label that the repository's test
`very_long_label` requires it to reject, and the empty label; the superseded
`FormatOptions::label` of `format_options.rs` rejects both, exhibiting the
intended acceptance condition. -/
theorem label_skips_validation :
    FormatterOptions.default.label' longLabel =
      .ok { FormatterOptions.default with label := .Text longLabel } ∧
    longLabel.utf8ByteSize = 256 ∧
    FormatterOptions.default.label' "" =
      .ok { FormatterOptions.default with label := .Text "" } ∧
    FormatOptions.default.label' longLabel = .error (String.quote longLabel) ∧
    FormatOptions.default.label' "" = .error (String.quote "") := by
  refine ⟨rfl, by decide, rfl, rfl, rfl⟩

/-- C6: `Formatter::format` on a device path that verifiably does not exist
does not fail: `try_exists` yields `Ok(false)`, the `?` operator passes that
through, and the external `mkfs.btrfs` process is started with the missing
device appended to the argument list. -/
theorem format_missing_device_starts_process :
    tryExists PathState.missing = .ok false ∧
    Formatter.format { args := [] } "./does-not-exist.btrfs"
        (fun _ => PathState.missing) =
      .ok { program := "mkfs.btrfs", args := ["./does-not-exist.btrfs"] } :=
  ⟨rfl, rfl⟩

end Overmount

namespace Rover.Config

/-- C1: for every supported format tag (everything except `Dummy`), whenever
the external backend's encoder and decoder round-trip the config (decoding
must tolerate the trailing newline `save` appends), `load` after `save` at the
same path returns exactly the original config. -/
theorem config_save_load_roundtrip (codec : Codec) (fs : FS) (path : String)
    (c : Config) (format : ConfigFormat) (s : String)
    (hfmt : format = .Json ∨ format = .Ron ∨ format = .Toml ∨ format = .Yaml)
    (henc : codec.enc format c = .ok s)
    (hdec : codec.dec format (s ++ "\n") = .ok c) :
    ∃ fs2, Config.save codec c fs path format = .ok fs2 ∧
      Config.load codec fs2 path format = .ok c := by
  rcases hfmt with h | h | h | h <;> subst h <;>
    exact ⟨fun p => if p = path then Option.some (s ++ "\n") else fs p,
      by simp [Config.save, Config.to_string_pretty, henc],
      by simp [Config.load, hdec]⟩

/-- Witness for C1: the round-trip at `trivialCodec`, which satisfies the
backend contract at the default config. -/
theorem config_save_load_roundtrip_witness :
    ((ConfigFormat.Json = ConfigFormat.Json ∨ ConfigFormat.Json = ConfigFormat.Ron ∨
        ConfigFormat.Json = ConfigFormat.Toml ∨ ConfigFormat.Json = ConfigFormat.Yaml) ∧
      trivialCodec.enc .Json Config.default = .ok "" ∧
      trivialCodec.dec .Json ("" ++ "\n") = .ok Config.default) ∧
    ∃ fs2, Config.save trivialCodec Config.default emptyFS "rover.conf" .Json = .ok fs2 ∧
      Config.load trivialCodec fs2 "rover.conf" .Json = .ok Config.default :=
  ⟨⟨Or.inl rfl, rfl, rfl⟩,
    config_save_load_roundtrip trivialCodec emptyFS "rover.conf" Config.default
      .Json "" (Or.inl rfl) rfl rfl⟩

/-- Counterexample to C7 as stated: saving with the unsupported `Dummy` tag
does not fail — it succeeds and writes a bare newline (the empty wildcard
serialization of `to_string_pretty` plus the newline `save` appends). -/
theorem save_dummy_succeeds :
    (Config.save trivialCodec Config.default emptyFS "rover.conf" .Dummy).map
      (fun f => f "rover.conf") = .ok (Option.some "\n") := by
  rfl

/-- C7 (amended): `load` with the unsupported `Dummy` tag on a readable file
fails with `ArgumentError` carrying an empty message, while `save` with
`Dummy` succeeds and overwrites the file with a single newline. -/
theorem unsupported_format_behavior (codec : Codec) (fs : FS) (path s : String)
    (c : Config) (hread : fs path = Option.some s) :
    Config.load codec fs path .Dummy = .error (.ArgumentError "") ∧
    Config.save codec c fs path .Dummy =
      .ok (fun p => if p = path then Option.some "\n" else fs p) := by
  constructor
  · simp [Config.load, hread]
  · simp only [Config.save, Config.to_string_pretty]
    rfl

/-- Witness for C7 (amended) at a one-file filesystem. -/
theorem unsupported_format_behavior_witness :
    ((fun _ => Option.some "x" : FS) "rover.conf" = Option.some "x") ∧
    (Config.load trivialCodec (fun _ => Option.some "x") "rover.conf" .Dummy =
        .error (.ArgumentError "") ∧
      Config.save trivialCodec Config.default (fun _ => Option.some "x") "rover.conf"
          .Dummy =
        .ok (fun p => if p = "rover.conf" then Option.some "\n"
          else (fun _ => Option.some "x" : FS) p)) :=
  ⟨rfl, unsupported_format_behavior trivialCodec (fun _ => Option.some "x")
    "rover.conf" "x" Config.default rfl⟩

/-- C8: deriving a `Config` from a base path rebases the overlay directory,
the disk image path and the disk mount directory under the base, sets the
common base directory to the base itself, and leaves the whole `Service`
sub-record (its mask/restart/stop unit lists) at the hard-coded defaults; at
the base "/opt/rover" this gives the concrete expected paths. -/
theorem config_derive_from_base (base : String) :
    (Config.derive base).overlay.overlay_directory = pathJoin base "mount" ∧
    (Config.derive base).disk.disk_image_path = pathJoin base "rwfus.btrfs" ∧
    (Config.derive base).disk.mount_directory = pathJoin base "mount" ∧
    (Config.derive base).common.base_directory = base ∧
    (Config.derive base).service = Service.default ∧
    (Config.derive "/opt/rover").overlay.overlay_directory = "/opt/rover/mount" ∧
    (Config.derive "/opt/rover").disk.disk_image_path = "/opt/rover/rwfus.btrfs" :=
  ⟨rfl, rfl, rfl, rfl, rfl, by decide, by decide⟩

/-- C9: deriving a `Configurator` from a base path sets the install directory
to base/"rwfus.btrfs" (the same path as the derived disk image), the service
directory to base/"service", and keeps the hard-coded systemd directory and
logfile defaults. -/
theorem configurator_derive_from_base (base : String) :
    (Configurator.derive base).install_directory = pathJoin base "rwfus.btrfs" ∧
    (Configurator.derive base).install_directory = (Disk.derive base).disk_image_path ∧
    (Config.derive base).configurator = Configurator.derive base ∧
    (Configurator.derive base).service_directory = pathJoin base "service" ∧
    (Configurator.derive base).systemd_directory = "/etc/systemd/system" ∧
    (Configurator.derive base).logfile = "/var/log/rwfus.log" :=
  ⟨rfl, rfl, rfl, rfl, rfl, rfl⟩

end Rover.Config

namespace Rover

/-- C10: `Overlay::new(source, destination)` stores the source verbatim and
derives upper and work as destination/"upper" and destination/"work"; its
`mount` operation hands exactly these paths to the external overlay-mount
collaborator, with the source as the (sole) lower directory. -/
theorem overlay_new_and_mount (source destination : String) :
    (Overlay.new source destination).source = source ∧
    (Overlay.new source destination).upper = pathJoin destination "upper" ∧
    (Overlay.new source destination).work = pathJoin destination "work" ∧
    (Overlay.new source destination).mount' =
      { lower_dirs := [source], upperdir := pathJoin destination "upper",
        workdir := pathJoin destination "work", target := source } :=
  ⟨rfl, rfl, rfl, rfl⟩

end Rover


